import Mathlib

/-!
Verification of the stateful rule-evaluation core of `app/api/alert_manager.py`
and the sensor-liveness state machine of `app/sensors/base_sensor.py`.

Modelling conventions.
* Timestamps (`datetime.now(timezone.utc)` values and the ISO-8601 `Date`
  strings derived from them) are modelled as integers counting seconds; the
  ISO string of a UTC instant is order-isomorphic to the instant itself.
  All `datetime.now` calls performed during one rule evaluation are modelled
  as the single tick instant `now`.
* Sensor payload values (`temperature_celsius`, `humidity_percent`,
  `distance_cm`) are modelled as rationals; Python float truthiness
  (`if temp and humidity`) becomes explicit `≠ 0` tests.
* Python dicts keyed by strings (`alert_cooldowns`, `high_humidity_start_times`,
  `zone_entry_times`, `daily_usage_stats`, `co2_exposure_tracking`) are
  modelled as total functions from `String`; absence of a key is `none`
  (respectively the `defaultdict` default `[]` / `0`).
* `self.alerts = deque(maxlen=1000)` is a list, oldest first; appending at
  capacity drops the head.
-/

/-- An emitted alert dict (`generate_alert_sync`, lines 69-86 of
`alert_manager.py`).  The constant boilerplate fields (`Report`, `App`,
`Stage...`, `Failure Class`, `OperatorNumber`, `OperatorName`, `ManagerName`,
`ManagerNumber`, `GoogleDriveURL`) carry the same literal string on every
record and are folded into `stage`; the `Date` ISO string is the integer
`date`. -/
structure AlertRecord where
  alertType : String
  assetId : String
  description : String
  date : Int
  anchor : String
  stage : String
  id : String
  priority : String
  deriving DecidableEq, Repr

/-- Append on `deque(maxlen=1000)` (line 12): at capacity the oldest (head)
element is discarded before the new one is appended on the right. -/
def dequeAppend (l : List AlertRecord) (r : AlertRecord) : List AlertRecord :=
  if l.length ≥ 1000 then l.tail ++ [r] else l ++ [r]

/-- Rebuilding `deque(iterable, maxlen=1000)` (line 569): keeps the last 1000
elements of the iterable. -/
def dequeOfList (l : List AlertRecord) : List AlertRecord :=
  l.drop (l.length - 1000)

/-- Lines 65-90, `generate_alert_sync`: build the alert dict and append it to
`self.alerts`.  The numeric interpolations inside the human-readable
description are passed in by the caller as `description`. -/
def generate_alert_sync (alerts : List AlertRecord) (alert_type : String)
    (description : String) (priority : String) (zone_id : String) (now : Int) :
    List AlertRecord :=
  dequeAppend alerts
    { alertType := alert_type
      assetId := "no-asset-id-assigned"
      description := description
      date := now
      anchor := zone_id
      stage := "Active"
      id := "ALERT_" ++ alert_type ++ "_" ++ toString now
      priority := priority }

/-- Pointwise update of a string-keyed map (`d[k] = v` / `del d[k]`). -/
def mapUpd {α : Type} (m : String → α) (k : String) (v : α) : String → α :=
  fun k' => if k' = k then v else m k'

/-- Lines 92-102, `should_generate_alert`: the cooldown gate.  Returns the
boolean result together with the updated `alert_cooldowns` map. -/
def should_generate_alert (cooldowns : String → Option Int) (alert_type : String)
    (cooldown_minutes : Int) (now : Int) : Bool × (String → Option Int) :=
  match cooldowns alert_type with
  | some last =>
      if now - last < cooldown_minutes * 60 then (false, cooldowns)
      else (true, mapUpd cooldowns alert_type (some now))
  | none => (true, mapUpd cooldowns alert_type (some now))

/-- Lines 564-578, `clear_old_alerts`: keep alerts whose `Date` is strictly
newer than `now - days` days, rebuilt as a `deque(maxlen=1000)`. -/
def clear_old_alerts (alerts : List AlertRecord) (days : Int) (now : Int) :
    List AlertRecord :=
  dequeOfList (alerts.filter (fun a => a.date > now - days * 86400))

/-- Stable insertion of a record into a list sorted by `Date` descending; on
ties the inserted (originally earlier) record stays first, matching the
stability of Python's `sorted(..., reverse=True)`. -/
def insertByDateDesc (r : AlertRecord) : List AlertRecord → List AlertRecord
  | [] => [r]
  | a :: t => if r.date ≥ a.date then r :: a :: t else a :: insertByDateDesc r t

/-- Python's stable `sorted(key=lambda x: x['Date'], reverse=True)`. -/
def sortByDateDesc : List AlertRecord → List AlertRecord
  | [] => []
  | r :: t => insertByDateDesc r (sortByDateDesc t)

/-- Python slicing `list(self.alerts)[-limit:]` on a natural `limit`:
`-0` is `0`, so `limit = 0` yields the whole list; otherwise the last
`limit` elements. -/
def pyLastN (l : List AlertRecord) (limit : Nat) : List AlertRecord :=
  if limit = 0 then l else l.drop (l.length - limit)

/-- Lines 475-478, `get_recent_alerts`: take `list(self.alerts)[-limit:]`
and sort it by `Date` descending. -/
def get_recent_alerts (alerts : List AlertRecord) (limit : Nat) :
    List AlertRecord :=
  sortByDateDesc (pyLastN alerts limit)

/-- State of `BaseSensor` (`base_sensor.py`, lines 11-21) restricted to the
fields `update_reading` touches; the payload dict is modelled opaquely as an
integer. -/
structure BaseSensor where
  is_active : Bool
  consecutive_failed_reads : Nat
  connection_failures : Nat
  max_connection_failures : Nat
  current_reading : Option Int
  last_reading_time : Option Int
  deriving DecidableEq, Repr

/-- Constructor state (lines 11-21): inactive, zero counters, threshold 5. -/
def initBaseSensor : BaseSensor :=
  { is_active := false
    consecutive_failed_reads := 0
    connection_failures := 0
    max_connection_failures := 5
    current_reading := none
    last_reading_time := none }

/-- Lines 33-71, `BaseSensor.update_reading`, on one read outcome `data`
(`None` covers both a `None` return and a raised exception: lines 46-61 and
63-71 perform the same state changes). -/
def update_reading (s : BaseSensor) (data : Option Int) (now : Int) : BaseSensor :=
  match data with
  | some d =>
      { s with current_reading := some d
               last_reading_time := some now
               connection_failures := 0
               consecutive_failed_reads := 0
               is_active := true }
  | none =>
      if s.is_active then
        let c := s.consecutive_failed_reads + 1
        if c ≥ s.max_connection_failures then
          { s with consecutive_failed_reads := c
                   is_active := false
                   current_reading := none
                   connection_failures := s.connection_failures + 1 }
        else { s with consecutive_failed_reads := c }
      else s

/-- One sensor reading of type `temperature_humidity` as consumed by the rules
(the `.get('field', 0)` defaults are folded into the field values). -/
structure TempHumidityReading where
  temperature_celsius : Rat
  humidity_percent : Rat
  zone_id : String
  deriving DecidableEq, Repr

/-- One sensor reading of type `air_quality`. -/
structure AirQualityReading where
  gas_detected : Bool
  zone_id : String
  deriving DecidableEq, Repr

/-- One sensor reading of type `ultrasonic`. -/
structure UltrasonicReading where
  distance_cm : Rat
  zone_id : String
  deriving DecidableEq, Repr

/-- One sensor reading of type `motion_sensor`. -/
structure MotionReading where
  motion_detected : Bool
  motion_count : Nat
  deriving DecidableEq, Repr

/-- The `readings_dict` built by `check_all_alerts` (lines 107-110): one
most-recent reading per sensor type; `none` models an absent key (whose
`.get(..., {})` default is the falsy empty dict). -/
structure Snapshot where
  temperature_humidity : Option TempHumidityReading
  air_quality : Option AirQualityReading
  ultrasonic : Option UltrasonicReading
  motion_sensor : Option MotionReading
  deriving DecidableEq, Repr

/-- Mutable state of `AlertManager` (lines 11-21) relevant to rule
evaluation. -/
structure AlertManagerState where
  alerts : List AlertRecord
  alert_cooldowns : String → Option Int
  zone_entry_times : String → List Int
  daily_usage_stats : String → Nat
  co2_exposure_tracking : String → Rat
  high_humidity_start_times : String → Option Int

/-- Fresh `AlertManager` state (lines 11-21): empty store, no cooldowns, all
tracker dicts empty / at their defaultdict defaults. -/
def initAlertManagerState : AlertManagerState :=
  { alerts := []
    alert_cooldowns := fun _ => none
    zone_entry_times := fun _ => []
    daily_usage_stats := fun _ => 0
    co2_exposure_tracking := fun _ => 0
    high_humidity_start_times := fun _ => none }

/-- Configuration consumed by `check_hvac_load_control` (lines 130-149).
`hvacConfig` below carries the values from `ALERT_CONFIGURATIONS`, which
coincide with the in-code `.get` fallbacks. -/
structure HvacConfig where
  enabled : Bool
  temp_threshold : Rat
  humidity_threshold : Rat
  cooldown_minutes : Int
  priority : String
  deriving DecidableEq, Repr

/-- `ALERT_CONFIGURATIONS["Smart_HVAC_Load_Control"]` from
`config/settings.py`. -/
def hvacConfig : HvacConfig :=
  { enabled := true
    temp_threshold := 23
    humidity_threshold := 60
    cooldown_minutes := 30
    priority := "Medium" }

/-- Configuration consumed by `check_dehumidifier_trigger` (lines 245-261). -/
structure DehumidifierConfig where
  enabled : Bool
  humidity_threshold : Rat
  duration_minutes : Int
  cooldown_minutes : Int
  priority : String
  deriving DecidableEq, Repr

/-- `ALERT_CONFIGURATIONS["Dehumidifier_Smart_Trigger"]` from
`config/settings.py`. -/
def dehumidifierConfig : DehumidifierConfig :=
  { enabled := true
    humidity_threshold := 75
    duration_minutes := 15
    cooldown_minutes := 20
    priority := "High" }

/-- Configuration consumed by `check_toilet_cleaning_trigger` (lines
378-401).  `ALERT_CONFIGURATIONS` has no `Toilet_Occupancy_Cleaning` entry,
so `toiletConfig` carries exactly the in-code `.get` fallbacks. -/
structure ToiletConfig where
  enabled : Bool
  humidity_threshold : Rat
  duration_minutes : Int
  usage_threshold : Nat
  cooldown_minutes : Int
  priority : String
  deriving DecidableEq, Repr

/-- The `.get` fallback configuration of `Toilet_Occupancy_Cleaning`
(lines 397-401). -/
def toiletConfig : ToiletConfig :=
  { enabled := true
    humidity_threshold := 70
    duration_minutes := 30
    usage_threshold := 25
    cooldown_minutes := 45
    priority := "Medium" }

/-- Configuration consumed by `check_carbon_penalty_avoidance` (lines
423-435). -/
structure CarbonConfig where
  enabled : Bool
  exposure_hours_threshold : Rat
  cooldown_minutes : Int
  priority : String
  deriving DecidableEq, Repr

/-- `ALERT_CONFIGURATIONS["Carbon_Penalty_Avoidance"]` from
`config/settings.py`. -/
def carbonConfig : CarbonConfig :=
  { enabled := true
    exposure_hours_threshold := 2
    cooldown_minutes := 60
    priority := "High" }

/-- Lines 128-156, `check_hvac_load_control`.  Python's
`if temp and humidity and temp < temp_threshold and humidity > humidity_threshold`
makes the zero float falsy, hence the explicit `≠ 0` conjuncts.  `gas_level`
feeds only the description (the `'gas_detected' in air_reading` test is
always true for a reading produced by the air-quality sensor). -/
def check_hvac_load_control (config : HvacConfig) (readings : Snapshot)
    (now : Int) (s : AlertManagerState) : AlertManagerState :=
  if config.enabled = false then s else
  match readings.temperature_humidity, readings.air_quality with
  | some temp_reading, some air_reading =>
      let temp := temp_reading.temperature_celsius
      let humidity := temp_reading.humidity_percent
      let gas_level := if air_reading.gas_detected = false then "Low" else "High"
      if temp ≠ 0 ∧ humidity ≠ 0 ∧ temp < config.temp_threshold ∧
          humidity > config.humidity_threshold then
        let g := should_generate_alert s.alert_cooldowns "Smart_HVAC_Load_Control"
          config.cooldown_minutes now
        let s' := { s with alert_cooldowns := g.2 }
        if g.1 then
          { s' with alerts := (generate_alert_sync s'.alerts
              "Smart_HVAC_Load_Control"
              ("Optimal conditions for reduced HVAC load: Gas Level = " ++ gas_level
                ++ ". Consider switching to energy-saving mode.")
              config.priority "Zone-1" now) }
        else s'
      else s
  | _, _ => s

/-- Lines 243-277, `check_dehumidifier_trigger`: the sustained-high-humidity
duration timer kept in `high_humidity_start_times`, keyed by the
temperature reading's zone. -/
def check_dehumidifier_trigger (config : DehumidifierConfig) (readings : Snapshot)
    (now : Int) (s : AlertManagerState) : AlertManagerState :=
  if config.enabled = false then s else
  match readings.temperature_humidity with
  | some temp_reading =>
      let humidity := temp_reading.humidity_percent
      let zone_id := temp_reading.zone_id
      if humidity > config.humidity_threshold then
        match s.high_humidity_start_times zone_id with
        | none =>
            { s with high_humidity_start_times :=
                mapUpd s.high_humidity_start_times zone_id (some now) }
        | some start =>
            let duration := now - start
            if duration > config.duration_minutes * 60 then
              let g := should_generate_alert s.alert_cooldowns
                "Dehumidifier_Smart_Trigger" config.cooldown_minutes now
              let s' := { s with alert_cooldowns := g.2 }
              if g.1 then
                { s' with alerts := (generate_alert_sync s'.alerts
                    "Dehumidifier_Smart_Trigger"
                    (zone_id ++ ": sustained high humidity - activate dehumidifier.")
                    config.priority zone_id now) }
              else s'
            else s
      else
        match s.high_humidity_start_times zone_id with
        | some _ =>
            { s with high_humidity_start_times :=
                mapUpd s.high_humidity_start_times zone_id none }
        | none => s
  | none => s

/-- Lines 376-419, `check_toilet_cleaning_trigger`: increments the per-zone
daily usage counter on close proximity, then tracks high-humidity duration
in the same `high_humidity_start_times` dict the dehumidifier rule uses,
keyed by the ultrasonic reading's zone. -/
def check_toilet_cleaning_trigger (config : ToiletConfig) (readings : Snapshot)
    (now : Int) (s : AlertManagerState) : AlertManagerState :=
  if config.enabled = false then s else
  match readings.ultrasonic, readings.temperature_humidity, readings.motion_sensor with
  | some ultrasonic_reading, some temp_reading, some _ =>
      let distance := ultrasonic_reading.distance_cm
      let humidity := temp_reading.humidity_percent
      let zone_id := ultrasonic_reading.zone_id
      let s :=
        if distance < 100 then
          { s with daily_usage_stats :=
              (mapUpd s.daily_usage_stats zone_id (s.daily_usage_stats zone_id + 1)) }
        else s
      if humidity > config.humidity_threshold then
        match s.high_humidity_start_times zone_id with
        | none =>
            { s with high_humidity_start_times :=
                mapUpd s.high_humidity_start_times zone_id (some now) }
        | some start =>
            let duration := now - start
            if duration > config.duration_minutes * 60 ∨
                s.daily_usage_stats zone_id > config.usage_threshold then
              let g := should_generate_alert s.alert_cooldowns
                "Toilet_Occupancy_Cleaning" config.cooldown_minutes now
              let s' := { s with alert_cooldowns := g.2 }
              if g.1 then
                { s' with alerts := (generate_alert_sync s'.alerts
                    "Toilet_Occupancy_Cleaning"
                    (zone_id ++ ": usage and humidity call for cleaning.")
                    config.priority zone_id now) }
              else s'
            else s
      else
        match s.high_humidity_start_times zone_id with
        | some _ =>
            { s with high_humidity_start_times :=
                mapUpd s.high_humidity_start_times zone_id none }
        | none => s
  | _, _, _ => s

/-- Lines 421-448, `check_carbon_penalty_avoidance`: the monotone CO2
exposure accumulator, incremented by `1/3600` hours on every tick with gas
detected, keyed by the air reading's zone. -/
def check_carbon_penalty_avoidance (config : CarbonConfig) (readings : Snapshot)
    (now : Int) (s : AlertManagerState) : AlertManagerState :=
  if config.enabled = false then s else
  match readings.air_quality with
  | some air_reading =>
      let gas_detected := air_reading.gas_detected
      let zone_id := air_reading.zone_id
      let s :=
        if gas_detected then
          { s with co2_exposure_tracking :=
              (mapUpd s.co2_exposure_tracking zone_id
                (s.co2_exposure_tracking zone_id + 1 / 3600)) }
        else s
      if s.co2_exposure_tracking zone_id > config.exposure_hours_threshold then
        let g := should_generate_alert s.alert_cooldowns
          "Carbon_Penalty_Avoidance" config.cooldown_minutes now
        let s' := { s with alert_cooldowns := g.2 }
        if g.1 then
          { s' with alerts := (generate_alert_sync s'.alerts
              "Carbon_Penalty_Avoidance"
              (zone_id ++ ": poor air quality exposure - ESG compliance risk.")
              config.priority zone_id now) }
        else s'
      else s
  | none => s

/-- Sequencing skeleton of `check_all_alerts` (lines 104-126): the rule
checks are invoked one after another on the shared manager state, with no
`try`/`except` around any call, so an exception raised inside one check
propagates and ends the pass.  Each rule is abstracted as a state
transformer in `Except`. -/
def runRulesSeq {σ ε : Type} (rules : List (σ → Except ε σ)) (s : σ) :
    Except ε σ :=
  match rules with
  | [] => Except.ok s
  | f :: fs =>
      match f s with
      | Except.ok s' => runRulesSeq fs s'
      | Except.error e => Except.error e

/-- One evaluation tick of a single rule, as every `check_*` method performs
it (e.g. lines 151-156): if the rule predicate fired, consult
`should_generate_alert` with the rule's configured cooldown and append a
record via `generate_alert_sync` exactly when the gate allows. -/
def ruleEmitStep (cooldownOf : String → Int) (s : AlertManagerState)
    (ev : String × Bool × Int) : AlertManagerState :=
  let (alert_type, fired, now) := ev
  if fired then
    let g := should_generate_alert s.alert_cooldowns alert_type
      (cooldownOf alert_type) now
    let s' := { s with alert_cooldowns := g.2 }
    if g.1 then
      { s' with alerts := (generate_alert_sync s'.alerts alert_type "" "Medium"
          "Zone-1" now) }
    else s'
  else s

/-- A sequence of evaluation ticks of the gated-emission pattern, each tick
carrying the alert type evaluated, whether its predicate fired, and the tick
instant. -/
def runTicks (cooldownOf : String → Int) (s : AlertManagerState)
    (trace : List (String × Bool × Int)) : AlertManagerState :=
  trace.foldl (ruleEmitStep cooldownOf) s

/-- Creation timestamps (`Date`) of the stored records of one alert type, in
append order. -/
def datesOfType (t : String) (l : List AlertRecord) : List Int :=
  (l.filter (fun a => a.alertType = t)).map (fun a => a.date)

/-- Ticks of the carbon-penalty rule only, each carrying its snapshot and
instant. -/
def runCarbonTicks (config : CarbonConfig) (s : AlertManagerState)
    (trace : List (Snapshot × Int)) : AlertManagerState :=
  trace.foldl (fun s rt => check_carbon_penalty_avoidance config rt.1 rt.2 s) s

/-- Operations the alert store undergoes: gated appends and age-based
pruning. -/
inductive StoreOp where
  | append (r : AlertRecord)
  | clearOld (days : Int) (now : Int)

/-- Apply one store operation. -/
def applyStoreOp (l : List AlertRecord) : StoreOp → List AlertRecord
  | StoreOp.append r => dequeAppend l r
  | StoreOp.clearOld days now => clear_old_alerts l days now

/-- Run a sequence of store operations from a given store. -/
def runStoreOps (l : List AlertRecord) (ops : List StoreOp) : List AlertRecord :=
  ops.foldl applyStoreOp l

/-- Sensor state used as a concrete witness input: Active with three
consecutive failures already recorded. -/
def sensorActive3 : BaseSensor :=
  { is_active := true
    consecutive_failed_reads := 3
    connection_failures := 0
    max_connection_failures := 5
    current_reading := some 1
    last_reading_time := some 0 }

/-- Manager state in which the dehumidifier rule has recorded a
high-humidity start time 0 for zone `Zone-1`. -/
def stateWithTimer : AlertManagerState :=
  { initAlertManagerState with high_humidity_start_times :=
      (mapUpd initAlertManagerState.high_humidity_start_times "Zone-1" (some 0)) }

/-- Snapshot with moderate humidity (50%), a far ultrasonic reading and a
motion reading, as required by the toilet-cleaning rule. -/
def snapshotModerateHumidity : Snapshot :=
  { temperature_humidity :=
      some { temperature_celsius := 22, humidity_percent := 50, zone_id := "Zone-1" }
    air_quality := none
    ultrasonic := some { distance_cm := 150, zone_id := "Zone-1" }
    motion_sensor := some { motion_detected := false, motion_count := 0 } }

/-- Snapshot whose air reading reports gas detected in zone `Zone-1`. -/
def gasSnapshot : Snapshot :=
  { temperature_humidity := none
    air_quality := some { gas_detected := true, zone_id := "Zone-1" }
    ultrasonic := none
    motion_sensor := none }

/-- Concrete alert record used in witnesses and counterexamples. -/
def recA : AlertRecord :=
  { alertType := "A"
    assetId := "no-asset-id-assigned"
    description := ""
    date := 0
    anchor := "Zone-1"
    stage := "Active"
    id := "ALERT_A_0"
    priority := "Medium" }

/-- Second concrete alert record, distinct from `recA`. -/
def recB : AlertRecord := { recA with alertType := "B", id := "ALERT_B_0" }

/-- Third concrete alert record. -/
def recC : AlertRecord := { recA with alertType := "C", id := "ALERT_C_0" }

/-- Fourth concrete alert record, dated after `recA`. -/
def recD : AlertRecord := { recA with date := 5, id := "ALERT_A_5" }

/-- Invariant carried through a tick trace for one alert type: the stored
dates of that type are pairwise separated by the cooldown, absent when no
emission is recorded, and all bounded by the recorded last emission. -/
def sepInv (t : String) (c60 : Int) (s : AlertManagerState) : Prop :=
  List.Pairwise (fun a b => a + c60 ≤ b) (datesOfType t s.alerts) ∧
    (s.alert_cooldowns t = none → datesOfType t s.alerts = []) ∧
    (∀ last, s.alert_cooldowns t = some last →
      ∀ d ∈ datesOfType t s.alerts, d ≤ last)

/-- Ghost log of the `Date` stamps of every record of type `t` the ticks of
a trace append through `generate_alert_sync`, including records the
capacity drop later evicts from the store. -/
def emittedDates (cooldownOf : String → Int) (t : String)
    (s : AlertManagerState) : List (String × Bool × Int) → List Int
  | [] => []
  | (atype, fired, now) :: rest =>
      (if fired = true ∧ atype = t ∧
          (should_generate_alert s.alert_cooldowns atype (cooldownOf atype)
            now).1 = true
        then [now] else [])
        ++ emittedDates cooldownOf t
            (ruleEmitStep cooldownOf s (atype, fired, now)) rest

/-- Claim C2: `should_generate_alert(alert_type, cooldown_minutes)` returns
true and records `now` when no prior emission is recorded; returns false
without touching the state when the elapsed time since the recorded last
emission is strictly below `cooldown_minutes * 60` seconds; and otherwise
records `now` and returns true. -/
theorem should_generate_alert_spec (c : String → Option Int) (t : String)
    (cm now : Int) :
    (c t = none →
      should_generate_alert c t cm now = (true, mapUpd c t (some now))) ∧
    (∀ last, c t = some last → now - last < cm * 60 →
      should_generate_alert c t cm now = (false, c)) ∧
    (∀ last, c t = some last → ¬ now - last < cm * 60 →
      should_generate_alert c t cm now = (true, mapUpd c t (some now))) := by
  refine ⟨fun h => ?_, fun last h hlt => ?_, fun last h hge => ?_⟩
  · simp [should_generate_alert, h]
  · simp [should_generate_alert, h, hlt]
  · simp [should_generate_alert, h, hge]

/-- Witness for C2: concrete runs through all three branches of the gate. -/
theorem should_generate_alert_spec_witness :
    should_generate_alert (fun _ => none) "Smart_HVAC_Load_Control" 30 5
      = (true, mapUpd (fun _ => none) "Smart_HVAC_Load_Control" (some 5)) ∧
    should_generate_alert (mapUpd (fun _ => none) "X" (some 0)) "X" 5 100
      = (false, mapUpd (fun _ => none) "X" (some 0)) ∧
    should_generate_alert (mapUpd (fun _ => none) "X" (some 0)) "X" 5 300
      = (true, mapUpd (mapUpd (fun _ => none) "X" (some 0)) "X" (some 300)) :=
  ⟨(should_generate_alert_spec (fun _ => none) "Smart_HVAC_Load_Control" 30 5).1 rfl,
   (should_generate_alert_spec (mapUpd (fun _ => none) "X" (some 0)) "X" 5 100).2.1
     0 (by decide) (by decide),
   (should_generate_alert_spec (mapUpd (fun _ => none) "X" (some 0)) "X" 5 300).2.2
     0 (by decide) (by decide)⟩

/-- Claim C4 (code_bug evidence): in the sequencing of `check_all_alerts` a
rule that raises aborts the rest of the pass.  The second rule run alone
completes (second conjunct), yet sequenced after a raising first rule the
pass ends with the first rule's exception and the second rule's effect never
happens (first conjunct). -/
theorem check_all_alerts_abort_on_exception :
    runRulesSeq [fun _ : Nat => (Except.error 0 : Except Nat Nat),
        fun n : Nat => Except.ok (n + 1)] 0 = Except.error 0 ∧
    runRulesSeq [fun n : Nat => (Except.ok (n + 1) : Except Nat Nat)] 0
      = Except.ok 1 :=
  ⟨rfl, rfl⟩

/-- Claim C5 (amended): a failed/missing read increments the
consecutive-failure counter only while the sensor is Active, and the sensor
transitions to Inactive exactly when the incremented counter reaches the
configured threshold (default 5); while Inactive a failed read changes
nothing; a successful read resets the counter to 0 and transitions to Active
immediately. -/
theorem update_reading_spec :
    (∀ (s : BaseSensor) (now : Int), s.is_active = true →
      (update_reading s none now).consecutive_failed_reads
          = s.consecutive_failed_reads + 1 ∧
        ((update_reading s none now).is_active = false ↔
          s.max_connection_failures ≤ s.consecutive_failed_reads + 1)) ∧
    (∀ (s : BaseSensor) (now : Int), s.is_active = false →
      update_reading s none now = s) ∧
    (∀ (s : BaseSensor) (d now : Int),
      (update_reading s (some d) now).consecutive_failed_reads = 0 ∧
        (update_reading s (some d) now).is_active = true) ∧
    initBaseSensor.max_connection_failures = 5 := by
  refine ⟨fun s now h => ?_, fun s now h => ?_, fun s d now => ?_, rfl⟩
  · by_cases hc : s.consecutive_failed_reads + 1 ≥ s.max_connection_failures <;>
      simp [update_reading, h, hc]
  · simp [update_reading, h]
  · simp [update_reading]

/-- Witness for C5: an Active sensor with three recorded failures takes a
fourth failure without deactivating, an Inactive sensor ignores a failure,
and a successful read resets the counter. -/
theorem update_reading_spec_witness :
    ((update_reading sensorActive3 none 0).consecutive_failed_reads
        = sensorActive3.consecutive_failed_reads + 1 ∧
      ((update_reading sensorActive3 none 0).is_active = false ↔
        sensorActive3.max_connection_failures
          ≤ sensorActive3.consecutive_failed_reads + 1)) ∧
    update_reading initBaseSensor none 0 = initBaseSensor ∧
    (update_reading initBaseSensor (some 7) 0).consecutive_failed_reads = 0 :=
  ⟨update_reading_spec.1 sensorActive3 0 rfl,
   update_reading_spec.2.1 initBaseSensor 0 rfl,
   (update_reading_spec.2.2.1 initBaseSensor 7 0).1⟩

/-- Counterexample to C5 as stated: the freshly constructed sensor is
Inactive with counter 0, and a failed read does not increment the counter
(the claim says every failed read increments it). -/
theorem update_reading_inactive_counterexample :
    ¬ (update_reading initBaseSensor none 0).consecutive_failed_reads
        = initBaseSensor.consecutive_failed_reads + 1 := by
  decide

/-- Claim C10: when the temperature-humidity reading reports a zero
temperature or a zero humidity, `check_hvac_load_control` emits nothing and
leaves the state untouched, whatever the thresholds, because the Python
predicate `if temp and humidity and ...` requires both values truthy. -/
theorem hvac_zero_reading_no_alert (config : HvacConfig) (readings : Snapshot)
    (now : Int) (s : AlertManagerState) (tr : TempHumidityReading)
    (h : readings.temperature_humidity = some tr)
    (h0 : tr.temperature_celsius = 0 ∨ tr.humidity_percent = 0) :
    check_hvac_load_control config readings now s = s := by
  have hp : ¬ (tr.temperature_celsius ≠ 0 ∧ tr.humidity_percent ≠ 0 ∧
      tr.temperature_celsius < config.temp_threshold ∧
      tr.humidity_percent > config.humidity_threshold) := by
    rcases h0 with h0 | h0 <;> simp [h0]
  unfold check_hvac_load_control
  rw [h]
  cases hq : readings.air_quality with
  | none => split <;> rfl
  | some ar =>
    split
    · rfl
    · simp only []
      rw [if_neg hp]

/-- Witness for C10: temperature 0 with humidity 70 meets the configured
thresholds (`0 < 23`, `70 > 60`) yet produces no alert. -/
theorem hvac_zero_reading_no_alert_witness :
    check_hvac_load_control hvacConfig
      { temperature_humidity :=
          some { temperature_celsius := 0, humidity_percent := 70, zone_id := "Zone-1" }
        air_quality := some { gas_detected := false, zone_id := "Zone-1" }
        ultrasonic := none
        motion_sensor := none } 0 initAlertManagerState = initAlertManagerState :=
  hvac_zero_reading_no_alert hvacConfig _ 0 initAlertManagerState
    { temperature_celsius := 0, humidity_percent := 70, zone_id := "Zone-1" }
    rfl (Or.inl rfl)

/-- Counterexample to C3 as stated: the two duration-timer rules are not
disjoint.  With the high-humidity start recorded for `Zone-1` (the state the
Dehumidifier_Smart_Trigger rule consults), one evaluation of
`check_toilet_cleaning_trigger` at 50% humidity deletes that start. -/
theorem toilet_resets_dehumidifier_timer_counterexample :
    stateWithTimer.high_humidity_start_times "Zone-1" = some 0 ∧
    (check_toilet_cleaning_trigger toiletConfig snapshotModerateHumidity 600
        stateWithTimer).high_humidity_start_times "Zone-1" = none := by
  constructor
  · rfl
  · rfl

/-- Claim C3 (amended): tracker state owned by a single rule is untouched by
the other rules — the dehumidifier rule never changes the
sliding-window, usage or exposure trackers; the toilet rule never changes
the sliding-window or exposure trackers; the carbon rule never changes the
sliding-window, usage or duration-timer trackers; the HVAC rule changes no
tracker at all.  The one exception forced by the counterexample is the
`high_humidity_start_times` duration timer, which the dehumidifier and
toilet rules share. -/
theorem rule_tracker_frame :
    (∀ (config : DehumidifierConfig) (r : Snapshot) (now : Int)
        (s : AlertManagerState),
      (check_dehumidifier_trigger config r now s).zone_entry_times
          = s.zone_entry_times ∧
        (check_dehumidifier_trigger config r now s).daily_usage_stats
          = s.daily_usage_stats ∧
        (check_dehumidifier_trigger config r now s).co2_exposure_tracking
          = s.co2_exposure_tracking) ∧
    (∀ (config : ToiletConfig) (r : Snapshot) (now : Int)
        (s : AlertManagerState),
      (check_toilet_cleaning_trigger config r now s).zone_entry_times
          = s.zone_entry_times ∧
        (check_toilet_cleaning_trigger config r now s).co2_exposure_tracking
          = s.co2_exposure_tracking) ∧
    (∀ (config : CarbonConfig) (r : Snapshot) (now : Int)
        (s : AlertManagerState),
      (check_carbon_penalty_avoidance config r now s).zone_entry_times
          = s.zone_entry_times ∧
        (check_carbon_penalty_avoidance config r now s).daily_usage_stats
          = s.daily_usage_stats ∧
        (check_carbon_penalty_avoidance config r now s).high_humidity_start_times
          = s.high_humidity_start_times) ∧
    (∀ (config : HvacConfig) (r : Snapshot) (now : Int)
        (s : AlertManagerState),
      (check_hvac_load_control config r now s).zone_entry_times
          = s.zone_entry_times ∧
        (check_hvac_load_control config r now s).daily_usage_stats
          = s.daily_usage_stats ∧
        (check_hvac_load_control config r now s).co2_exposure_tracking
          = s.co2_exposure_tracking ∧
        (check_hvac_load_control config r now s).high_humidity_start_times
          = s.high_humidity_start_times) := by
  refine ⟨fun config r now s => ⟨?_, ?_, ?_⟩, fun config r now s => ⟨?_, ?_⟩,
    fun config r now s => ⟨?_, ?_, ?_⟩, fun config r now s => ⟨?_, ?_, ?_, ?_⟩⟩ <;>
  · simp only [check_dehumidifier_trigger, check_toilet_cleaning_trigger,
      check_carbon_penalty_avoidance, check_hvac_load_control]
    repeat' split
    all_goals rfl

/-- Claim C7: once `check_dehumidifier_trigger` observes the humidity at or
below the threshold for a zone (clearing the recorded start), the next
observation above the threshold records the fresh observation instant as the
zone's start — never any start recorded before the drop. -/
theorem dehumidifier_timer_restarts (config : DehumidifierConfig)
    (s : AlertManagerState) (r1 r2 : Snapshot) (t t' : Int)
    (tr1 tr2 : TempHumidityReading) (z : String)
    (hEn : config.enabled = true)
    (h1 : r1.temperature_humidity = some tr1) (hz1 : tr1.zone_id = z)
    (hlow : ¬ tr1.humidity_percent > config.humidity_threshold)
    (h2 : r2.temperature_humidity = some tr2) (hz2 : tr2.zone_id = z)
    (hhigh : tr2.humidity_percent > config.humidity_threshold) :
    (check_dehumidifier_trigger config r2 t'
        (check_dehumidifier_trigger config r1 t s)).high_humidity_start_times z
      = some t' := by
  have hstep1 : (check_dehumidifier_trigger config r1 t s).high_humidity_start_times z
      = none := by
    cases hq : s.high_humidity_start_times tr1.zone_id <;> rw [hz1] at hq <;>
      simp [check_dehumidifier_trigger, hEn, h1, hlow, hz1, hq, mapUpd]
  obtain ⟨S1, hS1⟩ : ∃ S1, check_dehumidifier_trigger config r1 t s = S1 := ⟨_, rfl⟩
  rw [hS1] at hstep1 ⊢
  simp [check_dehumidifier_trigger, hEn, h2, hhigh, hz2, hstep1, mapUpd]

/-- Witness for C7: humidity 80% at time 0 starts the timer, humidity 60% at
time 300 clears it, humidity 80% again at time 400 restarts the duration
from 400. -/
theorem dehumidifier_timer_restarts_witness :
    (check_dehumidifier_trigger dehumidifierConfig
        { temperature_humidity :=
            some { temperature_celsius := 22, humidity_percent := 80, zone_id := "Zone-1" }
          air_quality := none
          ultrasonic := none
          motion_sensor := none } 400
        (check_dehumidifier_trigger dehumidifierConfig snapshotModerateHumidity 300
          stateWithTimer)).high_humidity_start_times "Zone-1"
      = some 400 :=
  dehumidifier_timer_restarts dehumidifierConfig stateWithTimer
    snapshotModerateHumidity _ 300 400
    { temperature_celsius := 22, humidity_percent := 50, zone_id := "Zone-1" }
    { temperature_celsius := 22, humidity_percent := 80, zone_id := "Zone-1" }
    "Zone-1" rfl rfl rfl (by decide) rfl rfl (by decide)

set_option maxHeartbeats 1600000 in
/-- Helper: one evaluation of the carbon-penalty rule never decreases any
zone's exposure accumulator. -/
theorem carbon_step_co2_mono (config : CarbonConfig) (r : Snapshot) (now : Int)
    (s : AlertManagerState) (z : String) :
    s.co2_exposure_tracking z
      ≤ (check_carbon_penalty_avoidance config r now s).co2_exposure_tracking z := by
  have key : ∀ (zone : String) (v : Rat), s.co2_exposure_tracking zone ≤ v →
      s.co2_exposure_tracking z ≤ mapUpd s.co2_exposure_tracking zone v z := by
    intro zone v hv
    simp only [mapUpd]
    by_cases h : z = zone
    · rw [if_pos h, h]
      exact hv
    · rw [if_neg h]
  cases hq : r.air_quality with
  | none =>
      unfold check_carbon_penalty_avoidance
      rw [hq]
      split <;> exact le_refl _
  | some ar =>
      cases hg : ar.gas_detected <;>
        simp only [check_carbon_penalty_avoidance, hq, hg] <;>
        repeat' split
      all_goals first
        | exact le_refl _
        | (refine key _ _ ?_; exact le_add_of_nonneg_right (by norm_num))

/-- Claim C8: for a fixed zone the exposure accumulator
`co2_exposure_tracking[zone]` gains exactly `1/3600` hours on a tick whose
air reading reports gas detected for that zone, is unchanged on a tick where
gas is not detected for it (no gas, another zone, or no air reading), and is
non-decreasing across any sequence of ticks. -/
theorem co2_exposure_spec :
    (∀ (r : Snapshot) (now : Int) (s : AlertManagerState) (ar : AirQualityReading),
      r.air_quality = some ar → ar.gas_detected = true →
      (check_carbon_penalty_avoidance carbonConfig r now s).co2_exposure_tracking
          ar.zone_id
        = s.co2_exposure_tracking ar.zone_id + 1 / 3600) ∧
    (∀ (r : Snapshot) (now : Int) (s : AlertManagerState) (ar : AirQualityReading)
        (z : String),
      r.air_quality = some ar → (ar.gas_detected = false ∨ ar.zone_id ≠ z) →
      (check_carbon_penalty_avoidance carbonConfig r now s).co2_exposure_tracking z
        = s.co2_exposure_tracking z) ∧
    (∀ (r : Snapshot) (now : Int) (s : AlertManagerState) (z : String),
      r.air_quality = none →
      (check_carbon_penalty_avoidance carbonConfig r now s).co2_exposure_tracking z
        = s.co2_exposure_tracking z) ∧
    (∀ (config : CarbonConfig) (trace : List (Snapshot × Int))
        (s : AlertManagerState) (z : String),
      s.co2_exposure_tracking z
        ≤ (runCarbonTicks config s trace).co2_exposure_tracking z) := by
  refine ⟨fun r now s ar hair hgas => ?_, fun r now s ar z hair hcase => ?_,
    fun r now s z hair => ?_, fun config trace s z => ?_⟩
  · simp only [check_carbon_penalty_avoidance, carbonConfig, hair, hgas]
    repeat' split
    all_goals simp_all [mapUpd]
  · rcases hcase with hg | hz
    · simp only [check_carbon_penalty_avoidance, carbonConfig, hair, hg]
      repeat' split
      all_goals simp_all [mapUpd]
    · simp only [check_carbon_penalty_avoidance, carbonConfig, hair]
      repeat' split
      all_goals simp_all [mapUpd, Ne.symm hz]
  · simp only [check_carbon_penalty_avoidance, carbonConfig, hair]
    repeat' split
    all_goals simp_all
  · induction trace generalizing s with
    | nil => exact le_refl _
    | cons rt rest ih =>
        refine le_trans (carbon_step_co2_mono config rt.1 rt.2 s z) ?_
        simpa only [runCarbonTicks, List.foldl_cons] using
          ih (check_carbon_penalty_avoidance config rt.1 rt.2 s)

/-- Witness for C8: one gas tick adds `1/3600` for the zone, a tick without
an air reading leaves the accumulator unchanged, and a one-tick run is
non-decreasing. -/
theorem co2_exposure_spec_witness :
    (check_carbon_penalty_avoidance carbonConfig gasSnapshot 0
        initAlertManagerState).co2_exposure_tracking "Zone-1"
      = initAlertManagerState.co2_exposure_tracking "Zone-1" + 1 / 3600 ∧
    (check_carbon_penalty_avoidance carbonConfig snapshotModerateHumidity 0
        initAlertManagerState).co2_exposure_tracking "Zone-1"
      = initAlertManagerState.co2_exposure_tracking "Zone-1" ∧
    initAlertManagerState.co2_exposure_tracking "Zone-1"
      ≤ (runCarbonTicks carbonConfig initAlertManagerState
          [(gasSnapshot, 0)]).co2_exposure_tracking "Zone-1" :=
  ⟨co2_exposure_spec.1 gasSnapshot 0 initAlertManagerState
      { gas_detected := true, zone_id := "Zone-1" } rfl rfl,
   co2_exposure_spec.2.2.1 snapshotModerateHumidity 0 initAlertManagerState
      "Zone-1" rfl,
   co2_exposure_spec.2.2.2 carbonConfig [(gasSnapshot, 0)]
      initAlertManagerState "Zone-1"⟩

/-- Helper: every single store operation keeps the store within the
1000-record capacity. -/
theorem applyStoreOp_length_le (l : List AlertRecord) (op : StoreOp)
    (h : l.length ≤ 1000) : (applyStoreOp l op).length ≤ 1000 := by
  cases op with
  | append r =>
      simp only [applyStoreOp, dequeAppend]
      split
      · next hlen =>
          simp only [List.length_append, List.length_tail, List.length_singleton]
          omega
      · next hlen =>
          simp only [List.length_append, List.length_singleton]
          omega
  | clearOld days now =>
      simp only [applyStoreOp, clear_old_alerts, dequeOfList]
      rw [List.length_drop]
      omega

/-- Helper: any run of store operations keeps the bound. -/
theorem runStoreOps_length_le (ops : List StoreOp) (l : List AlertRecord)
    (h : l.length ≤ 1000) : (runStoreOps l ops).length ≤ 1000 := by
  induction ops generalizing l with
  | nil => exact h
  | cons op rest ih =>
      simpa only [runStoreOps, List.foldl_cons] using
        ih (applyStoreOp l op) (applyStoreOp_length_le l op h)

/-- Claim C6: after any sequence of appends and prunes the store holds at
most 1000 records; an append below capacity preserves insertion order by
placing the new record at the end; an append at capacity drops exactly the
oldest record (the head), which is then absent when not duplicated. -/
theorem alert_store_bounded_spec :
    (∀ ops : List StoreOp, (runStoreOps [] ops).length ≤ 1000) ∧
    (∀ (l : List AlertRecord) (r : AlertRecord), l.length < 1000 →
      dequeAppend l r = l ++ [r]) ∧
    (∀ (a : AlertRecord) (t : List AlertRecord) (r : AlertRecord),
      (a :: t).length = 1000 →
      dequeAppend (a :: t) r = t ++ [r] ∧
        (a ∉ t → a ≠ r → a ∉ dequeAppend (a :: t) r)) := by
  refine ⟨fun ops => runStoreOps_length_le ops [] (by simp),
    fun l r hlt => ?_, fun a t r hlen => ?_⟩
  · unfold dequeAppend
    rw [if_neg (by omega)]
  · have heq : dequeAppend (a :: t) r = t ++ [r] := by
      unfold dequeAppend
      rw [if_pos (by omega)]
      rfl
    refine ⟨heq, fun hnt hnr => ?_⟩
    rw [heq]
    simp only [List.mem_append, List.mem_singleton]
    rintro (hmem | hmem)
    · exact hnt hmem
    · exact hnr hmem

/-- Witness for C6: a one-append run stays within the bound, an append below
capacity appends at the end, and an append to a full 1000-element store
evicts the head. -/
theorem alert_store_bounded_witness :
    (runStoreOps [] [StoreOp.append recA]).length ≤ 1000 ∧
    dequeAppend [recA] recB = [recA] ++ [recB] ∧
    recA ∉ dequeAppend (recA :: List.replicate 999 recB) recC :=
  ⟨alert_store_bounded_spec.1 [StoreOp.append recA],
   alert_store_bounded_spec.2.1 [recA] recB (by simp),
   (alert_store_bounded_spec.2.2 recA (List.replicate 999 recB) recC
      (by rw [List.length_cons, List.length_replicate])).2
     (by
       simp only [List.mem_replicate]
       rintro ⟨-, hab⟩
       exact absurd hab (by decide))
     (by decide)⟩

/-- Helper: inserting a record whose date is strictly below every listed
date appends it at the end. -/
theorem insertByDateDesc_of_lt (r : AlertRecord) (l : List AlertRecord)
    (h : ∀ b ∈ l, r.date < b.date) : insertByDateDesc r l = l ++ [r] := by
  induction l with
  | nil => rfl
  | cons a t ih =>
      have ha : ¬ r.date ≥ a.date := by
        have := h a (List.mem_cons_self a t)
        omega
      simp only [insertByDateDesc, if_neg ha]
      rw [ih (fun b hb => h b (List.mem_cons_of_mem a hb)), List.cons_append]

/-- Helper: the stable descending date sort of a list with strictly
increasing dates is its reverse. -/
theorem sortByDateDesc_of_strict_increase (l : List AlertRecord)
    (h : List.Pairwise (fun a b => a.date < b.date) l) :
    sortByDateDesc l = l.reverse := by
  induction l with
  | nil => rfl
  | cons a t ih =>
      rw [List.pairwise_cons] at h
      simp only [sortByDateDesc]
      rw [ih h.2, insertByDateDesc_of_lt a t.reverse
        (fun b hb => h.1 b (List.mem_reverse.mp hb)), List.reverse_cons]

/-- Claim C9 (amended): for a positive `limit` and a store whose `Date`
values strictly increase in append order, `get_recent_alerts(limit)` returns
the `min(limit, size)` most recently appended records with the most recently
appended first; `limit = 0` is the exception recorded by the
counterexample. -/
theorem get_recent_alerts_spec (l : List AlertRecord) (limit : Nat)
    (h1 : 1 ≤ limit)
    (h2 : List.Pairwise (fun a b => a.date < b.date) l) :
    get_recent_alerts l limit = (l.drop (l.length - limit)).reverse ∧
      (l.drop (l.length - limit)).length = min limit l.length := by
  refine ⟨?_, ?_⟩
  · unfold get_recent_alerts pyLastN
    rw [if_neg (by omega)]
    exact sortByDateDesc_of_strict_increase _
      (List.Pairwise.sublist (List.drop_sublist _ _) h2)
  · rw [List.length_drop]
    omega

/-- Counterexample to C9 as stated: with `limit = 0` the Python slice
`list(alerts)[-0:]` is the whole store, so a one-record store yields one
record where the claim requires zero. -/
theorem get_recent_alerts_limit_zero_counterexample :
    get_recent_alerts [recA] 0 ≠ [] := by decide

/-- Witness for C9: a two-record store with increasing dates and
`limit = 1` returns exactly the newest record first. -/
theorem get_recent_alerts_spec_witness :
    get_recent_alerts [recA, recD] 1
        = ([recA, recD].drop ([recA, recD].length - 1)).reverse ∧
      ([recA, recD].drop ([recA, recD].length - 1)).length
        = min 1 [recA, recD].length :=
  get_recent_alerts_spec [recA, recD] 1 (by decide) (by decide)

/-- Helper: dates of one type in a head-dropped store form a sublist. -/
theorem datesOfType_tail_sublist (t : String) (l : List AlertRecord) :
    (datesOfType t l.tail).Sublist (datesOfType t l) :=
  ((List.tail_sublist l).filter _).map _

/-- Helper: `datesOfType` distributes over list append. -/
theorem datesOfType_append (t : String) (l₁ l₂ : List AlertRecord) :
    datesOfType t (l₁ ++ l₂) = datesOfType t l₁ ++ datesOfType t l₂ := by
  simp [datesOfType, List.filter_append]

/-- Helper: dates of one type after a deque append split into the dates of
the (possibly head-dropped) old store and those of the new record. -/
theorem datesOfType_dequeAppend (t : String) (l : List AlertRecord)
    (r : AlertRecord) :
    datesOfType t (dequeAppend l r)
      = datesOfType t (if l.length ≥ 1000 then l.tail else l)
        ++ datesOfType t [r] := by
  by_cases hc : l.length ≥ 1000 <;> simp [dequeAppend, hc, datesOfType_append]

/-- Helper: appending a later date separated from every stored date keeps
the pairwise cooldown separation. -/
theorem pairwise_sep_append (c60 : Int) (ds : List Int) (x : Int)
    (hP : List.Pairwise (fun a b => a + c60 ≤ b) ds)
    (hub : ∀ d ∈ ds, d + c60 ≤ x) :
    List.Pairwise (fun a b => a + c60 ≤ b) (ds ++ [x]) := by
  rw [List.pairwise_append]
  refine ⟨hP, List.pairwise_singleton _ _, fun a ha b hb => ?_⟩
  rw [List.mem_singleton] at hb
  subst hb
  exact hub a ha

/-- Helper: dates surviving the capacity drop form a sublist of the stored
dates. -/
theorem datesOfType_dropOld_sublist (t : String) (l : List AlertRecord) :
    (datesOfType t (if l.length ≥ 1000 then l.tail else l)).Sublist
      (datesOfType t l) := by
  split
  · exact datesOfType_tail_sublist t l
  · exact List.Sublist.refl _

/-- Helper: the dates of one type contributed by a fresh emission record. -/
theorem datesOfType_emitted (t atype : String) (alerts : List AlertRecord)
    (now : Int) :
    datesOfType t (generate_alert_sync alerts atype "" "Medium" "Zone-1" now)
      = datesOfType t (if alerts.length ≥ 1000 then alerts.tail else alerts)
        ++ (if atype = t then [now] else []) := by
  unfold generate_alert_sync
  rw [datesOfType_dequeAppend]
  congr 1
  by_cases hat : atype = t <;> simp [datesOfType, hat]

/-- Helper: when the gate grants an emission, the tick appends the record
and re-stamps the cooldown entry. -/
theorem ruleEmitStep_gate_true (cooldownOf : String → Int)
    (s : AlertManagerState) (atype : String) (now : Int)
    (hgate : should_generate_alert s.alert_cooldowns atype (cooldownOf atype) now
      = (true, mapUpd s.alert_cooldowns atype (some now))) :
    ruleEmitStep cooldownOf s (atype, true, now)
      = { s with
          alerts := (generate_alert_sync s.alerts atype "" "Medium" "Zone-1" now)
          alert_cooldowns := (mapUpd s.alert_cooldowns atype (some now)) } := by
  simp only [ruleEmitStep, hgate, if_true, ite_true]

/-- Helper: when the gate denies, the tick leaves the state unchanged. -/
theorem ruleEmitStep_gate_false (cooldownOf : String → Int)
    (s : AlertManagerState) (atype : String) (now last : Int)
    (hg : s.alert_cooldowns atype = some last)
    (hlt : now - last < cooldownOf atype * 60) :
    ruleEmitStep cooldownOf s (atype, true, now) = s := by
  simp only [ruleEmitStep, should_generate_alert, hg, hlt, if_true, ite_true,
    Bool.false_eq_true, if_false, ite_false]
  try rfl

/-- Helper: the separation invariant survives an emission granted by the
gate (first emission, or one separated from the recorded last emission). -/
theorem sepInv_emission (t atype : String) (c60 : Int) (hc : 0 ≤ c60)
    (s : AlertManagerState) (now : Int)
    (hP : List.Pairwise (fun a b => a + c60 ≤ b) (datesOfType t s.alerts))
    (hnone : s.alert_cooldowns t = none → datesOfType t s.alerts = [])
    (hsome : ∀ last, s.alert_cooldowns t = some last →
      ∀ d ∈ datesOfType t s.alerts, d ≤ last)
    (hfree : atype = t →
      (s.alert_cooldowns t = none ∨
        ∃ last, s.alert_cooldowns t = some last ∧ last + c60 ≤ now)) :
    sepInv t c60
      { s with
        alerts := (generate_alert_sync s.alerts atype "" "Medium" "Zone-1" now)
        alert_cooldowns := (mapUpd s.alert_cooldowns atype (some now)) } := by
  have hsub := datesOfType_dropOld_sublist t s.alerts
  have hP' := List.Pairwise.sublist hsub hP
  refine ⟨?_, ?_, ?_⟩
  · show List.Pairwise _ (datesOfType t
      (generate_alert_sync s.alerts atype "" "Medium" "Zone-1" now))
    rw [datesOfType_emitted]
    by_cases hat : atype = t
    · rw [if_pos hat]
      refine pairwise_sep_append c60 _ now hP' (fun d hd => ?_)
      have hd' := hsub.subset hd
      rcases hfree hat with hcn | ⟨last, hcl, hle⟩
      · rw [hnone hcn] at hd'
        exact absurd hd' (List.not_mem_nil d)
      · have := hsome last hcl d hd'
        omega
    · rw [if_neg hat, List.append_nil]
      exact hP'
  · show mapUpd s.alert_cooldowns atype (some now) t = none →
      datesOfType t (generate_alert_sync s.alerts atype "" "Medium" "Zone-1" now) = []
    intro hct
    by_cases hat : atype = t
    · rw [show t = atype from hat.symm] at hct
      simp [mapUpd] at hct
    · have hta : ¬ t = atype := fun hh => hat hh.symm
      have hct' : s.alert_cooldowns t = none := by
        simp only [mapUpd, if_neg hta] at hct
        exact hct
      rw [datesOfType_emitted, if_neg hat, List.append_nil]
      rw [hnone hct'] at hsub
      exact List.sublist_nil.mp hsub
  · show ∀ last, mapUpd s.alert_cooldowns atype (some now) t = some last → _
    intro last hlast d hd
    rw [show datesOfType t ({ s with
        alerts := (generate_alert_sync s.alerts atype "" "Medium" "Zone-1" now)
        alert_cooldowns := (mapUpd s.alert_cooldowns atype (some now))
        } : AlertManagerState).alerts
      = datesOfType t (generate_alert_sync s.alerts atype "" "Medium" "Zone-1" now)
      from rfl, datesOfType_emitted] at hd
    by_cases hat : atype = t
    · have hnl : now = last := by
        rw [show t = atype from hat.symm] at hlast
        simpa [mapUpd] using hlast
      rw [if_pos hat] at hd
      rcases List.mem_append.mp hd with hd' | hd'
      · have hmem := hsub.subset hd'
        rcases hfree hat with hcn | ⟨last0, hcl, hle⟩
        · rw [hnone hcn] at hmem
          exact absurd hmem (List.not_mem_nil d)
        · have := hsome last0 hcl d hmem
          omega
      · rw [List.mem_singleton] at hd'
        omega
    · have hta : ¬ t = atype := fun hh => hat hh.symm
      have hlast' : s.alert_cooldowns t = some last := by
        simp only [mapUpd, if_neg hta] at hlast
        exact hlast
      rw [if_neg hat, List.append_nil] at hd
      exact hsome last hlast' d (hsub.subset hd)

/-- Helper: one gated-emission tick preserves the separation invariant. -/
theorem ruleEmitStep_sepInv (cooldownOf : String → Int) (t : String)
    (hC : 0 ≤ cooldownOf t) (s : AlertManagerState) (ev : String × Bool × Int)
    (h : sepInv t (cooldownOf t * 60) s) :
    sepInv t (cooldownOf t * 60) (ruleEmitStep cooldownOf s ev) := by
  obtain ⟨atype, fired, now⟩ := ev
  obtain ⟨hP, hnone, hsome⟩ := h
  cases fired with
  | false => exact ⟨hP, hnone, hsome⟩
  | true =>
    rcases hg : s.alert_cooldowns atype with _ | last
    · rw [ruleEmitStep_gate_true cooldownOf s atype now
        (by simp [should_generate_alert, hg])]
      refine sepInv_emission t atype _ (mul_nonneg hC (by norm_num)) s now
        hP hnone hsome ?_
      intro hat
      left
      rw [← hat]
      exact hg
    · by_cases hlt : now - last < cooldownOf atype * 60
      · rw [ruleEmitStep_gate_false cooldownOf s atype now last hg hlt]
        exact ⟨hP, hnone, hsome⟩
      · rw [ruleEmitStep_gate_true cooldownOf s atype now
          (by simp [should_generate_alert, hg, hlt])]
        refine sepInv_emission t atype _ (mul_nonneg hC (by norm_num)) s now
          hP hnone hsome ?_
        intro hat
        right
        refine ⟨last, ?_, ?_⟩
        · rw [← hat]
          exact hg
        · rw [← hat]
          omega

/-- Helper: the separation invariant is preserved along any tick trace. -/
theorem runTicks_sepInv (cooldownOf : String → Int) (t : String)
    (hC : 0 ≤ cooldownOf t) (trace : List (String × Bool × Int)) :
    ∀ s, sepInv t (cooldownOf t * 60) s →
      sepInv t (cooldownOf t * 60) (runTicks cooldownOf s trace) := by
  induction trace with
  | nil => exact fun s h => h
  | cons ev rest ih =>
      intro s h
      simpa only [runTicks, List.foldl_cons] using
        ih (ruleEmitStep cooldownOf s ev) (ruleEmitStep_sepInv cooldownOf t hC s ev h)

/-- Helper: the store-resident records of one type keep pairwise separated
dates over any trace. -/
theorem runTicks_store_separation (cooldownOf : String → Int) (t : String)
    (hC : 0 ≤ cooldownOf t) (trace : List (String × Bool × Int)) :
    List.Pairwise (fun a b => a + cooldownOf t * 60 ≤ b)
      (datesOfType t (runTicks cooldownOf initAlertManagerState trace).alerts) := by
  have hinit : sepInv t (cooldownOf t * 60) initAlertManagerState := by
    refine ⟨List.Pairwise.nil, fun _ => rfl, fun last hl => ?_⟩
    exact absurd hl (by simp [initAlertManagerState])
  exact (runTicks_sepInv cooldownOf t hC trace initAlertManagerState hinit).1

/-- Helper: lookup of a string-keyed map at the updated key. -/
theorem mapUpd_self {α : Type} (m : String → α) (k : String) (v : α) :
    mapUpd m k v k = v := by
  simp [mapUpd]

/-- Helper: lookup of a string-keyed map away from the updated key. -/
theorem mapUpd_ne {α : Type} (m : String → α) (k k' : String) (v : α)
    (h : ¬ k' = k) : mapUpd m k v k' = m k' := by
  simp [mapUpd, h]

/-- Helper: over any trace, the emitted-dates log of type `t` is pairwise
separated by the cooldown, and bounded below by the recorded last emission
plus the cooldown. -/
theorem emittedDates_sep (cooldownOf : String → Int) (t : String)
    (hC : 0 ≤ cooldownOf t) (trace : List (String × Bool × Int)) :
    ∀ s : AlertManagerState,
      List.Pairwise (fun a b => a + cooldownOf t * 60 ≤ b)
        (emittedDates cooldownOf t s trace) ∧
      (∀ last, s.alert_cooldowns t = some last →
        ∀ d ∈ emittedDates cooldownOf t s trace,
          last + cooldownOf t * 60 ≤ d) := by
  induction trace with
  | nil =>
      intro s
      exact ⟨List.Pairwise.nil, fun last hl d hd => absurd hd (List.not_mem_nil d)⟩
  | cons ev rest ih =>
    obtain ⟨atype, fired, now⟩ := ev
    intro s
    cases fired with
    | false =>
        have hrw : emittedDates cooldownOf t s ((atype, false, now) :: rest)
            = emittedDates cooldownOf t s rest := by
          simp [emittedDates]
          rfl
        rw [hrw]
        exact ih s
    | true =>
      rcases hg : s.alert_cooldowns atype with _ | last
      · have hgate : should_generate_alert s.alert_cooldowns atype
            (cooldownOf atype) now
            = (true, mapUpd s.alert_cooldowns atype (some now)) := by
          simp [should_generate_alert, hg]
        have hstep := ruleEmitStep_gate_true cooldownOf s atype now hgate
        by_cases hat : atype = t
        · subst hat
          have hcool : (ruleEmitStep cooldownOf s (atype, true, now)).alert_cooldowns
              atype = some now := by
            rw [hstep]
            exact mapUpd_self _ _ _
          obtain ⟨ihP, ihB⟩ := ih (ruleEmitStep cooldownOf s (atype, true, now))
          have hrw : emittedDates cooldownOf atype s ((atype, true, now) :: rest)
              = now :: emittedDates cooldownOf atype
                  (ruleEmitStep cooldownOf s (atype, true, now)) rest := by
            simp [emittedDates, hgate]
          rw [hrw]
          refine ⟨List.pairwise_cons.mpr ⟨fun b hb => ihB now hcool b hb, ihP⟩,
            fun last₀ hl d hd => ?_⟩
          rw [hg] at hl
          simp at hl
        · have hcool : (ruleEmitStep cooldownOf s (atype, true, now)).alert_cooldowns
              t = s.alert_cooldowns t := by
            rw [hstep]
            exact mapUpd_ne _ _ _ _ (fun hh => hat hh.symm)
          obtain ⟨ihP, ihB⟩ := ih (ruleEmitStep cooldownOf s (atype, true, now))
          have hrw : emittedDates cooldownOf t s ((atype, true, now) :: rest)
              = emittedDates cooldownOf t
                  (ruleEmitStep cooldownOf s (atype, true, now)) rest := by
            simp [emittedDates, hat]
          rw [hrw]
          refine ⟨ihP, fun last₀ hl d hd => ?_⟩
          refine ihB last₀ ?_ d hd
          rw [hcool]
          exact hl
      · by_cases hlt : now - last < cooldownOf atype * 60
        · have hstep := ruleEmitStep_gate_false cooldownOf s atype now last hg hlt
          have hgate1 : (should_generate_alert s.alert_cooldowns atype
              (cooldownOf atype) now).1 = false := by
            simp [should_generate_alert, hg, hlt]
          obtain ⟨ihP, ihB⟩ := ih s
          have hrw : emittedDates cooldownOf t s ((atype, true, now) :: rest)
              = emittedDates cooldownOf t s rest := by
            simp [emittedDates, hgate1, hstep]
          rw [hrw]
          exact ⟨ihP, ihB⟩
        · have hgate : should_generate_alert s.alert_cooldowns atype
              (cooldownOf atype) now
              = (true, mapUpd s.alert_cooldowns atype (some now)) := by
            simp [should_generate_alert, hg, hlt]
          have hstep := ruleEmitStep_gate_true cooldownOf s atype now hgate
          by_cases hat : atype = t
          · subst hat
            have hcool : (ruleEmitStep cooldownOf s (atype, true, now)).alert_cooldowns
                atype = some now := by
              rw [hstep]
              exact mapUpd_self _ _ _
            obtain ⟨ihP, ihB⟩ := ih (ruleEmitStep cooldownOf s (atype, true, now))
            have hrw : emittedDates cooldownOf atype s ((atype, true, now) :: rest)
                = now :: emittedDates cooldownOf atype
                    (ruleEmitStep cooldownOf s (atype, true, now)) rest := by
              simp [emittedDates, hgate]
            rw [hrw]
            refine ⟨List.pairwise_cons.mpr ⟨fun b hb => ihB now hcool b hb, ihP⟩,
              fun last₀ hl d hd => ?_⟩
            rw [hg] at hl
            have hll : last = last₀ := by
              injection hl
            subst hll
            rcases List.mem_cons.mp hd with hd' | hd'
            · omega
            · have := ihB now hcool d hd'
              omega
          · have hcool : (ruleEmitStep cooldownOf s (atype, true, now)).alert_cooldowns
                t = s.alert_cooldowns t := by
              rw [hstep]
              exact mapUpd_ne _ _ _ _ (fun hh => hat hh.symm)
            obtain ⟨ihP, ihB⟩ := ih (ruleEmitStep cooldownOf s (atype, true, now))
            have hrw : emittedDates cooldownOf t s ((atype, true, now) :: rest)
                = emittedDates cooldownOf t
                    (ruleEmitStep cooldownOf s (atype, true, now)) rest := by
              simp [emittedDates, hat]
            rw [hrw]
            refine ⟨ihP, fun last₀ hl d hd => ?_⟩
            refine ihB last₀ ?_ d hd
            rw [hcool]
            exact hl

/-- Claim C1: with the configured cooldown `C = cooldownOf t ≥ 0` minutes
for alert type `t`, across any sequence of evaluation ticks of the gated
emission pattern from a fresh manager, the `Date` stamps of the records of
type `t` appended to the store — the full append log as well as the records
still resident after capacity drops — are pairwise at least `C` minutes
(`C*60` seconds) apart: no two records of that type are ever appended with
creation timestamps closer than the cooldown. -/
theorem alert_cooldown_separation (cooldownOf : String → Int) (t : String)
    (hC : 0 ≤ cooldownOf t) (trace : List (String × Bool × Int)) :
    List.Pairwise (fun a b => a + cooldownOf t * 60 ≤ b)
      (emittedDates cooldownOf t initAlertManagerState trace) ∧
    List.Pairwise (fun a b => a + cooldownOf t * 60 ≤ b)
      (datesOfType t (runTicks cooldownOf initAlertManagerState trace).alerts) :=
  ⟨(emittedDates_sep cooldownOf t hC trace initAlertManagerState).1,
   runTicks_store_separation cooldownOf t hC trace⟩

/-- Witness for C1: one alert type with a 5-minute cooldown and fire
requests at 0, 100 and 400 seconds; the gate admits 0 and 400 and blocks
100, and both the append log and the store keep 300-second separation. -/
theorem alert_cooldown_separation_witness :
    List.Pairwise (fun a b => a + (fun _ => (5 : Int)) "X" * 60 ≤ b)
      (emittedDates (fun _ => (5 : Int)) "X" initAlertManagerState
        [("X", true, 0), ("X", true, 100), ("X", true, 400)]) ∧
    List.Pairwise (fun a b => a + (fun _ => (5 : Int)) "X" * 60 ≤ b)
      (datesOfType "X" (runTicks (fun _ => (5 : Int)) initAlertManagerState
        [("X", true, 0), ("X", true, 100), ("X", true, 400)]).alerts) :=
  alert_cooldown_separation (fun _ => (5 : Int)) "X" (by norm_num)
    [("X", true, 0), ("X", true, 100), ("X", true, 400)]
